import Mathlib

/-!
Shallow embedding of the ELL LSTM layer
(src/libraries/predictors/neural/include/LSTMLayer.h).

The header declares the class interface: the LSTMParameters struct of four
weight-matrix and four bias-vector references, the LSTMLayer members
(owned copies of the eight parameters, the stored state vectors
_inputPlusHiddenVector and _ctActual, and the two activation objects),
and the operations Compute, Reset, WriteToArchive and ReadFromArchive.
The method bodies live in ../tcc/LSTMLayer.tcc, which is not among the
visible sources, so each operation body below is modelled from the spec.

Element type: the class is templated over ElementType; we instantiate at ℝ
(the idealisation of the floating-point element types), vectors as List ℝ
and matrices as row lists.
-/

namespace ELL

noncomputable section

/-- Modelled from the spec: the pluggable elementwise activation contract
(Activation.h is not among the visible sources).  The spec's concrete
scenario uses tanh as the squashing activation and the logistic sigmoid as
the gating activation, and serialization persists "identifiers for both
activation functions", so activations are embedded as identifiers together
with their interpretation. -/
inductive ActivationId where
  | tanhAct
  | sigmoidAct
  | hardSigmoidAct
deriving DecidableEq, Repr

/-- Logistic sigmoid, the conventional gating activation. -/
def sigmoid (x : ℝ) : ℝ := 1 / (1 + Real.exp (-x))

/-- Hard sigmoid: piecewise-linear approximation of the sigmoid. -/
def hardSigmoid (x : ℝ) : ℝ := max 0 (min 1 (0.2 * x + 0.5))

/-- Interpretation of an activation identifier as a scalar function. -/
def ActivationId.apply : ActivationId → ℝ → ℝ
  | .tanhAct, x => Real.tanh x
  | .sigmoidAct, x => sigmoid x
  | .hardSigmoidAct, x => hardSigmoid x

/-- Dot product, from the math library contract (dense matrix/vector ops). -/
def dot (xs ys : List ℝ) : ℝ := (List.zipWith (· * ·) xs ys).sum

/-- Dense matrix-vector multiply (matrix as list of rows). -/
def matVec (m : List (List ℝ)) (v : List ℝ) : List ℝ := m.map (fun r => dot r v)

/-- Elementwise vector addition. -/
def vadd (xs ys : List ℝ) : List ℝ := List.zipWith (· + ·) xs ys

/-- Elementwise (Hadamard) vector product. -/
def hadamard (xs ys : List ℝ) : List ℝ := List.zipWith (· * ·) xs ys

/-- The LSTMParameters struct of LSTMLayer.h: four weight matrices and four
bias vectors (the C++ fields are const references; the values they refer to
are embedded). -/
structure LSTMParameters where
  inputWeights : List (List ℝ)
  forgetMeWeights : List (List ℝ)
  candidateWeights : List (List ℝ)
  outputWeights : List (List ℝ)
  inputBias : List ℝ
  forgetMeBias : List ℝ
  candidateBias : List ℝ
  outputBias : List ℝ

/-- Modelled from the spec: the error conditions of §7 (the exception
classes themselves are part of the utilities library, not among the
visible sources). -/
inductive LayerError where
  | DimensionMismatch
  | ShapeMismatch
  | DeserializationError
deriving DecidableEq, Repr

/-- The LSTMLayer class state: owned copies of the eight parameters
(members _inputWeights .. _outputBias of MatrixType/VectorType), the two
stored state vectors _inputPlusHiddenVector (current input concatenated
with the hidden state, length inputSize + hiddenSize) and _ctActual (the
cell state, length hiddenSize), and the two activations.  inputSize and
hiddenSize record the shapes fixed by the LayerParameters of the base
class. -/
structure LSTMLayer where
  inputSize : ℕ
  hiddenSize : ℕ
  inputWeights : List (List ℝ)
  forgetMeWeights : List (List ℝ)
  candidateWeights : List (List ℝ)
  outputWeights : List (List ℝ)
  inputBias : List ℝ
  forgetMeBias : List ℝ
  candidateBias : List ℝ
  outputBias : List ℝ
  inputPlusHiddenVector : List ℝ
  ctActual : List ℝ
  activation : ActivationId
  recurrentActivation : ActivationId

/-- The parameter part of a layer, reassembled as an LSTMParameters value. -/
def LSTMLayer.params (l : LSTMLayer) : LSTMParameters :=
  { inputWeights := l.inputWeights
    forgetMeWeights := l.forgetMeWeights
    candidateWeights := l.candidateWeights
    outputWeights := l.outputWeights
    inputBias := l.inputBias
    forgetMeBias := l.forgetMeBias
    candidateBias := l.candidateBias
    outputBias := l.outputBias }

/-- Shape conformance of one weight matrix: hiddenSize rows, each of
length inputSize + hiddenSize. -/
def matrixDimsOk (m : List (List ℝ)) (rows cols : ℕ) : Bool :=
  m.length == rows && m.all (fun r => r.length == cols)

/-- Shape conformance of a full parameter set (§3 invariants): every weight
matrix is hiddenSize × (inputSize + hiddenSize) and every bias vector has
length hiddenSize. -/
def paramsDimsOk (inputSize hiddenSize : ℕ) (p : LSTMParameters) : Bool :=
  matrixDimsOk p.inputWeights hiddenSize (inputSize + hiddenSize) &&
  matrixDimsOk p.forgetMeWeights hiddenSize (inputSize + hiddenSize) &&
  matrixDimsOk p.candidateWeights hiddenSize (inputSize + hiddenSize) &&
  matrixDimsOk p.outputWeights hiddenSize (inputSize + hiddenSize) &&
  p.inputBias.length == hiddenSize &&
  p.forgetMeBias.length == hiddenSize &&
  p.candidateBias.length == hiddenSize &&
  p.outputBias.length == hiddenSize

/-- Propositional form of the §3 shape invariants, stated directly. -/
def paramsConform (inputSize hiddenSize : ℕ) (p : LSTMParameters) : Prop :=
  (p.inputWeights.length = hiddenSize ∧
      ∀ r ∈ p.inputWeights, r.length = inputSize + hiddenSize) ∧
  (p.forgetMeWeights.length = hiddenSize ∧
      ∀ r ∈ p.forgetMeWeights, r.length = inputSize + hiddenSize) ∧
  (p.candidateWeights.length = hiddenSize ∧
      ∀ r ∈ p.candidateWeights, r.length = inputSize + hiddenSize) ∧
  (p.outputWeights.length = hiddenSize ∧
      ∀ r ∈ p.outputWeights, r.length = inputSize + hiddenSize) ∧
  p.inputBias.length = hiddenSize ∧
  p.forgetMeBias.length = hiddenSize ∧
  p.candidateBias.length = hiddenSize ∧
  p.outputBias.length = hiddenSize

instance (i h : ℕ) (p : LSTMParameters) : Decidable (paramsConform i h p) := by
  unfold paramsConform; infer_instance

/-- Modelled from the spec: the LSTMLayer constructor body (in the missing
LSTMLayer.tcc).  §4.1: validates the dimensional invariants, failing with
DimensionMismatch, copies the parameters into the layer's owned members,
and allocates the retained state zero-initialized. -/
def LSTMLayer.construct (inputSize hiddenSize : ℕ) (p : LSTMParameters)
    (activation recurrentActivation : ActivationId) : Except LayerError LSTMLayer :=
  if paramsDimsOk inputSize hiddenSize p then
    .ok { inputSize := inputSize
          hiddenSize := hiddenSize
          inputWeights := p.inputWeights
          forgetMeWeights := p.forgetMeWeights
          candidateWeights := p.candidateWeights
          outputWeights := p.outputWeights
          inputBias := p.inputBias
          forgetMeBias := p.forgetMeBias
          candidateBias := p.candidateBias
          outputBias := p.outputBias
          inputPlusHiddenVector := List.replicate (inputSize + hiddenSize) 0
          ctActual := List.replicate hiddenSize 0
          activation := activation
          recurrentActivation := recurrentActivation }
  else .error .DimensionMismatch

/-- The hidden state: the trailing hiddenSize entries of the stored
_inputPlusHiddenVector. -/
def LSTMLayer.hiddenState (l : LSTMLayer) : List ℝ :=
  l.inputPlusHiddenVector.drop l.inputSize

/-- The transient concatenated vector [input ; previousHidden], rebuilt
from the current input and the hidden part of the stored state. -/
def LSTMLayer.concatVec (l : LSTMLayer) (input : List ℝ) : List ℝ :=
  input ++ l.inputPlusHiddenVector.drop l.inputSize

/-- The input gate: gatingActivation(inputWeights · concat + inputBias). -/
def LSTMLayer.inputGate (l : LSTMLayer) (input : List ℝ) : List ℝ :=
  (vadd (matVec l.inputWeights (l.concatVec input)) l.inputBias).map
    l.recurrentActivation.apply

/-- The forget gate: gatingActivation(forgetMeWeights · concat + forgetMeBias). -/
def LSTMLayer.forgetGate (l : LSTMLayer) (input : List ℝ) : List ℝ :=
  (vadd (matVec l.forgetMeWeights (l.concatVec input)) l.forgetMeBias).map
    l.recurrentActivation.apply

/-- The candidate: squashActivation(candidateWeights · concat + candidateBias). -/
def LSTMLayer.candidate (l : LSTMLayer) (input : List ℝ) : List ℝ :=
  (vadd (matVec l.candidateWeights (l.concatVec input)) l.candidateBias).map
    l.activation.apply

/-- The output gate: gatingActivation(outputWeights · concat + outputBias). -/
def LSTMLayer.outputGate (l : LSTMLayer) (input : List ℝ) : List ℝ :=
  (vadd (matVec l.outputWeights (l.concatVec input)) l.outputBias).map
    l.recurrentActivation.apply

/-- The updated cell state: forgetGate ⊙ previousCell + inputGate ⊙ candidate. -/
def LSTMLayer.newCellState (l : LSTMLayer) (input : List ℝ) : List ℝ :=
  vadd (hadamard (l.forgetGate input) l.ctActual)
    (hadamard (l.inputGate input) (l.candidate input))

/-- The updated hidden state: outputGate ⊙ squashActivation(newCell). -/
def LSTMLayer.newHiddenState (l : LSTMLayer) (input : List ℝ) : List ℝ :=
  hadamard (l.outputGate input) ((l.newCellState input).map l.activation.apply)

/-- Modelled from the spec: the body of LSTMLayer::Compute (in the missing
LSTMLayer.tcc).  §4.1 steps 1-9: validate the input element count against
inputSize (ShapeMismatch otherwise), build the concatenated vector
[input ; previousHidden], form the three gates with the gating (recurrent)
activation and the candidate with the squashing activation, update
newCell = forgetGate ⊙ previousCell + inputGate ⊙ candidate and
newHidden = outputGate ⊙ squash(newCell), store them as the retained
state (the stored concatenation keeps the current input before the new
hidden state), and expose newHidden as the output. -/
def LSTMLayer.Compute (layer : LSTMLayer) (input : List ℝ) :
    Except LayerError (LSTMLayer × List ℝ) :=
  if input.length = layer.inputSize then
    .ok ({ layer with
            inputPlusHiddenVector := input ++ layer.newHiddenState input
            ctActual := layer.newCellState input },
         layer.newHiddenState input)
  else .error .ShapeMismatch

/-- Modelled from the spec: the body of LSTMLayer::Reset (in the missing
LSTMLayer.tcc).  §4.1: sets both cell state and hidden state to all-zero
vectors of length hiddenSize (the stored concatenation is fully zeroed). -/
def LSTMLayer.Reset (layer : LSTMLayer) : LSTMLayer :=
  { layer with
    inputPlusHiddenVector := List.replicate (layer.inputSize + layer.hiddenSize) 0
    ctActual := List.replicate layer.hiddenSize 0 }

/-- The serialized record: named fields for the four weight matrices, the
four bias vectors, both activation identifiers and the layer shapes
(archived by the base class).  The retained state has no field. -/
structure Archive where
  inputSize : ℕ
  hiddenSize : ℕ
  inputWeights : List (List ℝ)
  forgetMeWeights : List (List ℝ)
  candidateWeights : List (List ℝ)
  outputWeights : List (List ℝ)
  inputBias : List ℝ
  forgetMeBias : List ℝ
  candidateBias : List ℝ
  outputBias : List ℝ
  activation : ActivationId
  recurrentActivation : ActivationId

/-- Modelled from the spec: the body of LSTMLayer::WriteToArchive (in the
missing LSTMLayer.tcc).  §4.1: persists all four weight matrices, all four
bias vectors and identifiers for both activation functions; the retained
state is not persisted. -/
def LSTMLayer.WriteToArchive (l : LSTMLayer) : Archive :=
  { inputSize := l.inputSize
    hiddenSize := l.hiddenSize
    inputWeights := l.inputWeights
    forgetMeWeights := l.forgetMeWeights
    candidateWeights := l.candidateWeights
    outputWeights := l.outputWeights
    inputBias := l.inputBias
    forgetMeBias := l.forgetMeBias
    candidateBias := l.candidateBias
    outputBias := l.outputBias
    activation := l.activation
    recurrentActivation := l.recurrentActivation }

/-- Modelled from the spec: the body of LSTMLayer::ReadFromArchive (in the
missing LSTMLayer.tcc).  §4.1: reconstructs the layer from the archived
fields, re-validating the dimensional invariants (DeserializationError on
an inconsistent record); the deserialized layer starts with zeroed state. -/
def LSTMLayer.ReadFromArchive (a : Archive) : Except LayerError LSTMLayer :=
  if paramsDimsOk a.inputSize a.hiddenSize
      { inputWeights := a.inputWeights
        forgetMeWeights := a.forgetMeWeights
        candidateWeights := a.candidateWeights
        outputWeights := a.outputWeights
        inputBias := a.inputBias
        forgetMeBias := a.forgetMeBias
        candidateBias := a.candidateBias
        outputBias := a.outputBias } then
    .ok { inputSize := a.inputSize
          hiddenSize := a.hiddenSize
          inputWeights := a.inputWeights
          forgetMeWeights := a.forgetMeWeights
          candidateWeights := a.candidateWeights
          outputWeights := a.outputWeights
          inputBias := a.inputBias
          forgetMeBias := a.forgetMeBias
          candidateBias := a.candidateBias
          outputBias := a.outputBias
          inputPlusHiddenVector := List.replicate (a.inputSize + a.hiddenSize) 0
          ctActual := List.replicate a.hiddenSize 0
          activation := a.activation
          recurrentActivation := a.recurrentActivation }
  else .error .DeserializationError

/-- One step of a compute history: the layer state after a Compute call
(on an error the state is unchanged, matching a thrown C++ exception). -/
def LSTMLayer.step (l : LSTMLayer) (x : List ℝ) : LSTMLayer :=
  match l.Compute x with
  | .ok (l2, _) => l2
  | .error _ => l

/-- The layer state after an arbitrary history of Compute calls. -/
def LSTMLayer.runHistory (l : LSTMLayer) (xs : List (List ℝ)) : LSTMLayer :=
  xs.foldl LSTMLayer.step l

/-- Running Compute over a whole input sequence in temporal order,
collecting the outputs. -/
def LSTMLayer.ComputeSeq (l : LSTMLayer) : List (List ℝ) →
    Except LayerError (LSTMLayer × List (List ℝ))
  | [] => .ok (l, [])
  | x :: xs =>
    match l.Compute x with
    | .ok (l2, y) =>
      match l2.ComputeSeq xs with
      | .ok (l3, ys) => .ok (l3, y :: ys)
      | .error e => .error e
    | .error e => .error e

/-- The concrete parameter set of the spec's scenario (hiddenSize = 1,
inputSize = 1, all weights 1 except the forget weights 0, all biases 0). -/
def scenarioParams : LSTMParameters :=
  { inputWeights := [[1, 1]]
    forgetMeWeights := [[0, 0]]
    candidateWeights := [[1, 1]]
    outputWeights := [[1, 1]]
    inputBias := [0]
    forgetMeBias := [0]
    candidateBias := [0]
    outputBias := [0] }

/-- The scenario layer, in the reset (zero) state, with tanh squashing and
sigmoid gating. -/
def scenarioLayer : LSTMLayer :=
  { inputSize := 1
    hiddenSize := 1
    inputWeights := [[1, 1]]
    forgetMeWeights := [[0, 0]]
    candidateWeights := [[1, 1]]
    outputWeights := [[1, 1]]
    inputBias := [0]
    forgetMeBias := [0]
    candidateBias := [0]
    outputBias := [0]
    inputPlusHiddenVector := [0, 0]
    ctActual := [0]
    activation := .tanhAct
    recurrentActivation := .sigmoidAct }

/-- Dropping the first i entries of an (i + h)-fold replication leaves the
h-fold replication. -/
theorem drop_replicate_add (i h : ℕ) (a : ℝ) :
    (List.replicate (i + h) a).drop i = List.replicate h a := by
  rw [List.replicate_add]
  simp

/-- Compute on a conforming input: the explicit success value. -/
theorem LSTMLayer.Compute_eq_ok (l : LSTMLayer) (input : List ℝ)
    (h : input.length = l.inputSize) :
    l.Compute input =
      .ok ({ l with
              inputPlusHiddenVector := input ++ l.newHiddenState input
              ctActual := l.newCellState input },
           l.newHiddenState input) := by
  unfold LSTMLayer.Compute
  rw [if_pos h]

/-- Compute on a non-conforming input: the explicit failure value. -/
theorem LSTMLayer.Compute_eq_error (l : LSTMLayer) (input : List ℝ)
    (h : input.length ≠ l.inputSize) :
    l.Compute input = .error .ShapeMismatch := by
  unfold LSTMLayer.Compute
  rw [if_neg h]

/-- A Compute step never changes the declared shapes. -/
theorem LSTMLayer.step_sizes (l : LSTMLayer) (x : List ℝ) :
    (l.step x).inputSize = l.inputSize ∧ (l.step x).hiddenSize = l.hiddenSize := by
  unfold LSTMLayer.step
  rcases h : l.Compute x with e | p
  · exact ⟨rfl, rfl⟩
  · obtain ⟨l2, y⟩ := p
    rcases Nat.decEq x.length l.inputSize with hlen | hlen
    · rw [l.Compute_eq_error x hlen] at h; cases h
    · rw [l.Compute_eq_ok x hlen] at h
      cases h
      exact ⟨rfl, rfl⟩

/-- A whole history of Compute calls never changes the declared shapes. -/
theorem LSTMLayer.runHistory_sizes (l : LSTMLayer) (xs : List (List ℝ)) :
    (l.runHistory xs).inputSize = l.inputSize ∧
    (l.runHistory xs).hiddenSize = l.hiddenSize := by
  induction xs generalizing l with
  | nil => exact ⟨rfl, rfl⟩
  | cons x xs ih =>
    have h1 := ih (l.step x)
    have h2 := l.step_sizes x
    simp only [LSTMLayer.runHistory, List.foldl_cons] at *
    exact ⟨h1.1.trans h2.1, h1.2.trans h2.2⟩

/-- C3: for every layer instance and every history of prior Compute calls,
Reset leaves both the cell state and the hidden state equal to the all-zero
vector of length hiddenSize, and Reset after Reset yields the same (zero)
state. -/
theorem reset_always_zeroes_state (l : LSTMLayer) (xs : List (List ℝ)) :
    ((l.runHistory xs).Reset).ctActual = List.replicate l.hiddenSize 0 ∧
    ((l.runHistory xs).Reset).hiddenState = List.replicate l.hiddenSize 0 ∧
    ((l.runHistory xs).Reset).Reset = (l.runHistory xs).Reset := by
  obtain ⟨hi, hh⟩ := l.runHistory_sizes xs
  refine ⟨?_, ?_, ?_⟩
  · simp [LSTMLayer.Reset, hh]
  · simp [LSTMLayer.Reset, LSTMLayer.hiddenState, hi, hh, drop_replicate_add]
  · simp [LSTMLayer.Reset]

/-- C4: Compute is a deterministic function of the input, the retained
state and the parameters: two runs from the exact same layer value and
input produce identical results (output and resulting retained state). -/
theorem compute_deterministic (l : LSTMLayer) (x : List ℝ)
    (r₁ r₂ : Except LayerError (LSTMLayer × List ℝ))
    (h₁ : l.Compute x = r₁) (h₂ : l.Compute x = r₂) : r₁ = r₂ :=
  h₁.symm.trans h₂

/-- Witness for C4 at the scenario layer and input [1.0]. -/
theorem compute_deterministic_witness :
    scenarioLayer.Compute [1] = scenarioLayer.Compute [1] :=
  compute_deterministic scenarioLayer [1] _ _ rfl rfl

/-- C7: a Compute call whose input element count differs from the declared
inputSize fails with ShapeMismatch, and a Compute call with a conforming
input always succeeds. -/
theorem compute_shape_validation (l : LSTMLayer) (x : List ℝ) :
    (x.length ≠ l.inputSize → l.Compute x = .error .ShapeMismatch) ∧
    (x.length = l.inputSize → ∃ l₂ y, l.Compute x = .ok (l₂, y)) := by
  constructor
  · exact fun h => l.Compute_eq_error x h
  · exact fun h => ⟨_, _, l.Compute_eq_ok x h⟩

/-- Witness for C7: a length-2 input to the scenario layer (inputSize 1)
fails with ShapeMismatch, and the conforming input [1.0] succeeds. -/
theorem compute_shape_validation_witness :
    scenarioLayer.Compute [1, 2] = .error .ShapeMismatch ∧
    ∃ l₂ y, scenarioLayer.Compute [1] = .ok (l₂, y) :=
  ⟨(compute_shape_validation scenarioLayer [1, 2]).1 (by decide),
   (compute_shape_validation scenarioLayer [1]).2 (by decide)⟩

/-- The Bool shape check agrees with the propositional §3 invariants. -/
theorem paramsConform_iff (i h : ℕ) (p : LSTMParameters) :
    paramsConform i h p ↔ paramsDimsOk i h p = true := by
  simp only [paramsConform, paramsDimsOk, matrixDimsOk, Bool.and_eq_true,
    beq_iff_eq, List.all_eq_true, decide_eq_true_eq, and_assoc]

/-- A parameter set with a weight matrix of the wrong column count. -/
def badParams : LSTMParameters := { scenarioParams with inputWeights := [[1]] }

/-- C6: construction succeeds exactly when every weight matrix has
hiddenSize rows of length inputSize + hiddenSize and every bias vector has
length hiddenSize; on any violation it fails with DimensionMismatch, so no
partially-valid layer value is produced. -/
theorem construct_dimension_validation (i h : ℕ) (p : LSTMParameters)
    (a r : ActivationId) :
    ((∃ l, LSTMLayer.construct i h p a r = .ok l) ↔ paramsConform i h p) ∧
    (¬ paramsConform i h p →
      LSTMLayer.construct i h p a r = .error .DimensionMismatch) := by
  rw [paramsConform_iff]
  unfold LSTMLayer.construct
  by_cases hc : paramsDimsOk i h p = true
  · rw [if_pos hc]
    exact ⟨⟨fun _ => hc, fun _ => ⟨_, rfl⟩⟩, fun hn => absurd hc hn⟩
  · rw [if_neg hc]
    refine ⟨⟨fun hl => ?_, fun hcc => absurd hcc hc⟩, fun _ => rfl⟩
    obtain ⟨l, hl⟩ := hl
    cases hl

/-- Witness for C6: the conforming scenario parameters construct
successfully, and a parameter set with a 1 × 1 input-weight matrix (for
inputSize = hiddenSize = 1, so 1 × 2 is required) fails with
DimensionMismatch. -/
theorem construct_dimension_validation_witness :
    (∃ l, LSTMLayer.construct 1 1 scenarioParams .tanhAct .sigmoidAct = .ok l) ∧
    LSTMLayer.construct 1 1 badParams .tanhAct .sigmoidAct =
      .error .DimensionMismatch :=
  ⟨(construct_dimension_validation 1 1 scenarioParams .tanhAct .sigmoidAct).1.mpr
      (by decide),
   (construct_dimension_validation 1 1 badParams .tanhAct .sigmoidAct).2
      (by decide)⟩

/-- C8: the serialized record holds the four weight matrices, the four
bias vectors and both activation identifiers, but not the retained state:
layers differing only in their retained state archive identically, and
every layer reconstructed by ReadFromArchive has zero cell and hidden
state, i.e. it equals its own Reset. -/
theorem archive_excludes_retained_state (l : LSTMLayer) (v c : List ℝ) :
    ({ l with inputPlusHiddenVector := v, ctActual := c } :
        LSTMLayer).WriteToArchive = l.WriteToArchive ∧
    l.WriteToArchive.inputWeights = l.inputWeights ∧
    l.WriteToArchive.forgetMeWeights = l.forgetMeWeights ∧
    l.WriteToArchive.candidateWeights = l.candidateWeights ∧
    l.WriteToArchive.outputWeights = l.outputWeights ∧
    l.WriteToArchive.inputBias = l.inputBias ∧
    l.WriteToArchive.forgetMeBias = l.forgetMeBias ∧
    l.WriteToArchive.candidateBias = l.candidateBias ∧
    l.WriteToArchive.outputBias = l.outputBias ∧
    l.WriteToArchive.activation = l.activation ∧
    l.WriteToArchive.recurrentActivation = l.recurrentActivation ∧
    (∀ a l₃, LSTMLayer.ReadFromArchive a = .ok l₃ →
      l₃.ctActual = List.replicate l₃.hiddenSize 0 ∧
      l₃.hiddenState = List.replicate l₃.hiddenSize 0 ∧
      l₃.Reset = l₃) := by
  refine ⟨rfl, rfl, rfl, rfl, rfl, rfl, rfl, rfl, rfl, rfl, rfl, ?_⟩
  intro a l₃ hread
  unfold LSTMLayer.ReadFromArchive at hread
  by_cases hc : paramsDimsOk a.inputSize a.hiddenSize
      { inputWeights := a.inputWeights
        forgetMeWeights := a.forgetMeWeights
        candidateWeights := a.candidateWeights
        outputWeights := a.outputWeights
        inputBias := a.inputBias
        forgetMeBias := a.forgetMeBias
        candidateBias := a.candidateBias
        outputBias := a.outputBias } = true
  · rw [if_pos hc] at hread
    cases hread
    refine ⟨rfl, ?_, ?_⟩
    · simp [LSTMLayer.hiddenState, drop_replicate_add]
    · simp [LSTMLayer.Reset]
  · rw [if_neg hc] at hread
    cases hread

/-- Witness for C8 at the scenario layer: a retained-state change does not
change the archive, and the layer read back from the scenario archive has
zero cell and hidden state. -/
theorem archive_excludes_retained_state_witness :
    ({ scenarioLayer with inputPlusHiddenVector := [5, 5], ctActual := [7] } :
        LSTMLayer).WriteToArchive = scenarioLayer.WriteToArchive ∧
    (scenarioLayer.Reset.ctActual =
        List.replicate scenarioLayer.Reset.hiddenSize 0 ∧
      scenarioLayer.Reset.hiddenState =
        List.replicate scenarioLayer.Reset.hiddenSize 0 ∧
      scenarioLayer.Reset.Reset = scenarioLayer.Reset) :=
  ⟨(archive_excludes_retained_state scenarioLayer [5, 5] [7]).1,
   (archive_excludes_retained_state scenarioLayer [5, 5] [7]).2.2.2.2.2.2.2.2.2.2.2
      scenarioLayer.WriteToArchive scenarioLayer.Reset rfl⟩

/-- C5: for conforming parameters, deserializing the serialized form of a
layer reconstructs a layer whose weight matrices, bias vectors and
activation identifiers exactly equal the original's, and whose Compute
outputs on every input sequence from reset exactly match the original
layer's outputs from reset. -/
theorem serialization_round_trip (l : LSTMLayer)
    (hdims : paramsDimsOk l.inputSize l.hiddenSize l.params = true) :
    ∃ l₂, LSTMLayer.ReadFromArchive l.WriteToArchive = .ok l₂ ∧
      l₂.inputWeights = l.inputWeights ∧
      l₂.forgetMeWeights = l.forgetMeWeights ∧
      l₂.candidateWeights = l.candidateWeights ∧
      l₂.outputWeights = l.outputWeights ∧
      l₂.inputBias = l.inputBias ∧
      l₂.forgetMeBias = l.forgetMeBias ∧
      l₂.candidateBias = l.candidateBias ∧
      l₂.outputBias = l.outputBias ∧
      l₂.activation = l.activation ∧
      l₂.recurrentActivation = l.recurrentActivation ∧
      ∀ xs, l₂.ComputeSeq xs = l.Reset.ComputeSeq xs := by
  refine ⟨l.Reset, ?_, rfl, rfl, rfl, rfl, rfl, rfl, rfl, rfl, rfl, rfl,
    fun xs => rfl⟩
  have hdims2 : paramsDimsOk l.inputSize l.hiddenSize
      { inputWeights := l.inputWeights
        forgetMeWeights := l.forgetMeWeights
        candidateWeights := l.candidateWeights
        outputWeights := l.outputWeights
        inputBias := l.inputBias
        forgetMeBias := l.forgetMeBias
        candidateBias := l.candidateBias
        outputBias := l.outputBias } = true := hdims
  unfold LSTMLayer.ReadFromArchive LSTMLayer.WriteToArchive
  rw [if_pos hdims2]
  rfl

/-- Witness for C5 at the scenario layer. -/
theorem serialization_round_trip_witness :
    ∃ l₂, LSTMLayer.ReadFromArchive scenarioLayer.WriteToArchive = .ok l₂ ∧
      l₂.inputWeights = scenarioLayer.inputWeights ∧
      l₂.forgetMeWeights = scenarioLayer.forgetMeWeights ∧
      l₂.candidateWeights = scenarioLayer.candidateWeights ∧
      l₂.outputWeights = scenarioLayer.outputWeights ∧
      l₂.inputBias = scenarioLayer.inputBias ∧
      l₂.forgetMeBias = scenarioLayer.forgetMeBias ∧
      l₂.candidateBias = scenarioLayer.candidateBias ∧
      l₂.outputBias = scenarioLayer.outputBias ∧
      l₂.activation = scenarioLayer.activation ∧
      l₂.recurrentActivation = scenarioLayer.recurrentActivation ∧
      ∀ xs, l₂.ComputeSeq xs = scenarioLayer.Reset.ComputeSeq xs :=
  serialization_round_trip scenarioLayer (by decide)

/-- Replacing the stored concatenation, keeping its hidden part, does not
change the transient concatenated vector. -/
theorem concatVec_set_stored (l : LSTMLayer) (v x : List ℝ)
    (hv : v.drop l.inputSize = l.inputPlusHiddenVector.drop l.inputSize) :
    ({ l with inputPlusHiddenVector := v } : LSTMLayer).concatVec x =
      l.concatVec x := by
  unfold LSTMLayer.concatVec
  simp only []
  rw [hv]

/-- C9: the concatenated vector is transient.  Compute reads the stored
concatenation only through its trailing hidden-state part (two stored
concatenations agreeing there give identical Compute results), and a
successful call rebuilds the stored concatenation from scratch as the
current input followed by the new hidden state, so the only information
carried between calls is the cell state and the hidden state. -/
theorem concat_vector_transient (l : LSTMLayer) (v x : List ℝ)
    (hv : v.drop l.inputSize = l.inputPlusHiddenVector.drop l.inputSize) :
    ({ l with inputPlusHiddenVector := v } : LSTMLayer).Compute x =
      l.Compute x ∧
    (∀ l₂ y, l.Compute x = .ok (l₂, y) →
      l₂.inputPlusHiddenVector = x ++ y ∧
      l₂.ctActual = l.newCellState x ∧
      l₂.hiddenState = y) := by
  have hconcat := concatVec_set_stored l v x hv
  have hcell : ({ l with inputPlusHiddenVector := v } :
      LSTMLayer).newCellState x = l.newCellState x := by
    unfold LSTMLayer.newCellState LSTMLayer.forgetGate LSTMLayer.inputGate
      LSTMLayer.candidate
    rw [hconcat]
  have hhid : ({ l with inputPlusHiddenVector := v } :
      LSTMLayer).newHiddenState x = l.newHiddenState x := by
    unfold LSTMLayer.newHiddenState LSTMLayer.outputGate
    rw [hconcat, hcell]
  constructor
  · unfold LSTMLayer.Compute
    simp only [hcell, hhid]
  · intro l₂ y hok
    rcases Nat.decEq x.length l.inputSize with hlen | hlen
    · rw [l.Compute_eq_error x hlen] at hok
      cases hok
    · rw [l.Compute_eq_ok x hlen] at hok
      cases hok
      refine ⟨rfl, rfl, ?_⟩
      unfold LSTMLayer.hiddenState
      exact List.drop_left' hlen

/-- Witness for C9: overwriting the stale input half of the scenario
layer's stored concatenation does not change the Compute result. -/
theorem concat_vector_transient_witness :
    ({ scenarioLayer with inputPlusHiddenVector := [9, 0] } :
        LSTMLayer).Compute [1] = scenarioLayer.Compute [1] :=
  (concat_vector_transient scenarioLayer [9, 0] [1] rfl).1

/-- C1: for a layer with well-formed parameters and an input of length
inputSize, one Compute call succeeds and produces the three gates by
applying the gating activation elementwise to weights · [input ; hidden]
plus bias, the candidate by the squashing activation likewise, the new
cell state forgetGate ⊙ previousCell + inputGate ⊙ candidate and the new
hidden state outputGate ⊙ squash(newCell); it stores the new cell and
hidden state as the retained state and exposes the new hidden state as
the output. -/
theorem compute_lstm_update (l : LSTMLayer) (input : List ℝ)
    (_hwf : paramsDimsOk l.inputSize l.hiddenSize l.params = true)
    (hlen : input.length = l.inputSize) :
    ∃ l₂, l.Compute input = .ok (l₂, l.newHiddenState input) ∧
      l₂.ctActual = l.newCellState input ∧
      l₂.hiddenState = l.newHiddenState input ∧
      l.newCellState input =
        vadd (hadamard (l.forgetGate input) l.ctActual)
          (hadamard (l.inputGate input) (l.candidate input)) ∧
      l.newHiddenState input =
        hadamard (l.outputGate input)
          ((l.newCellState input).map l.activation.apply) ∧
      l.inputGate input =
        (vadd (matVec l.inputWeights (input ++ l.hiddenState)) l.inputBias).map
          l.recurrentActivation.apply ∧
      l.forgetGate input =
        (vadd (matVec l.forgetMeWeights (input ++ l.hiddenState))
            l.forgetMeBias).map l.recurrentActivation.apply ∧
      l.outputGate input =
        (vadd (matVec l.outputWeights (input ++ l.hiddenState)) l.outputBias).map
          l.recurrentActivation.apply ∧
      l.candidate input =
        (vadd (matVec l.candidateWeights (input ++ l.hiddenState))
            l.candidateBias).map l.activation.apply := by
  refine ⟨_, l.Compute_eq_ok input hlen, rfl, ?_, rfl, rfl, rfl, rfl, rfl, rfl⟩
  unfold LSTMLayer.hiddenState
  exact List.drop_left' hlen

/-- Hyperbolic tangent written through exp, for interval bounds. -/
theorem tanh_eq_exp_two_mul (x : ℝ) :
    Real.tanh x = (Real.exp (2 * x) - 1) / (Real.exp (2 * x) + 1) := by
  rw [Real.tanh_eq_sinh_div_cosh, Real.sinh_eq, Real.cosh_eq]
  have hx : Real.exp (2 * x) = Real.exp x * Real.exp x := by
    rw [two_mul, Real.exp_add]
  have hpos : 0 < Real.exp x := Real.exp_pos x
  rw [hx, Real.exp_neg]
  field_simp

/-- Rational interval for sigmoid(1), from the decimal bounds on e. -/
theorem sigmoid_one_bounds : 0.7310585 < sigmoid 1 ∧ sigmoid 1 < 0.7310586 := by
  have h1 := Real.exp_one_gt_d9
  have h2 := Real.exp_one_lt_d9
  have hpos : (0:ℝ) < Real.exp 1 := Real.exp_pos 1
  have he : sigmoid 1 = Real.exp 1 / (Real.exp 1 + 1) := by
    unfold sigmoid
    rw [Real.exp_neg]
    field_simp
  rw [he]
  constructor
  · rw [lt_div_iff₀ (by positivity)]
    linarith
  · rw [div_lt_iff₀ (by positivity)]
    linarith

/-- Rational interval for exp(2), from the decimal bounds on e. -/
theorem exp_two_bounds :
    7.3890560 < Real.exp 2 ∧ Real.exp 2 < 7.3890561 := by
  have h1 := Real.exp_one_gt_d9
  have h2 := Real.exp_one_lt_d9
  have hpos : (0:ℝ) < Real.exp 1 := Real.exp_pos 1
  have hE2 : Real.exp 2 = Real.exp 1 * Real.exp 1 := by
    rw [show (2:ℝ) = 1 + 1 by norm_num, Real.exp_add]
  constructor
  · rw [hE2]
    nlinarith [mul_lt_mul'' h1 h1 (by norm_num : (0:ℝ) ≤ 2.7182818283)
      (by norm_num : (0:ℝ) ≤ 2.7182818283)]
  · rw [hE2]
    nlinarith [mul_lt_mul'' h2 h2 hpos.le hpos.le]

/-- Rational interval for tanh(1). -/
theorem tanh_one_bounds : 0.7615941 < Real.tanh 1 ∧ Real.tanh 1 < 0.7615943 := by
  obtain ⟨hlo, hhi⟩ := exp_two_bounds
  rw [tanh_eq_exp_two_mul, show (2:ℝ) * 1 = 2 by norm_num]
  constructor
  · rw [lt_div_iff₀ (by linarith)]
    linarith
  · rw [div_lt_iff₀ (by linarith)]
    linarith

/-- Rational interval for the scenario's new cell value sigmoid(1)·tanh(1). -/
theorem cell_bounds :
    0.5567698 < sigmoid 1 * Real.tanh 1 ∧ sigmoid 1 * Real.tanh 1 < 0.5567701 := by
  obtain ⟨s1, s2⟩ := sigmoid_one_bounds
  obtain ⟨t1, t2⟩ := tanh_one_bounds
  constructor <;> nlinarith

/-- Degree-4 Taylor lower bound at 0.1135. -/
theorem exp_01135_gt : (1.1201761:ℝ) < Real.exp 0.1135 := by
  have h := Real.exp_bound (x := (0.1135:ℝ))
    (by rw [abs_le]; constructor <;> norm_num) (n := 4) (by norm_num)
  rw [abs_le] at h
  norm_num [Finset.sum_range_succ, Finset.sum_range_zero, Nat.factorial,
    abs_of_nonneg] at h
  linarith [h.1, h.2]

/-- Degree-4 Taylor upper bound at 0.1136. -/
theorem exp_01136_lt : Real.exp 0.1136 < (1.1203055:ℝ) := by
  have h := Real.exp_bound (x := (0.1136:ℝ))
    (by rw [abs_le]; constructor <;> norm_num) (n := 4) (by norm_num)
  rw [abs_le] at h
  norm_num [Finset.sum_range_succ, Finset.sum_range_zero, Nat.factorial,
    abs_of_nonneg] at h
  linarith [h.1, h.2]

/-- Rational interval for exp of twice the scenario's new cell value,
via exp(2c) = e · exp(2c − 1) and the Taylor bounds. -/
theorem exp_cell_double_bounds :
    3.04495 < Real.exp (2 * (sigmoid 1 * Real.tanh 1)) ∧
    Real.exp (2 * (sigmoid 1 * Real.tanh 1)) < 3.04531 := by
  obtain ⟨c1, c2⟩ := cell_bounds
  have e1 := exp_01135_gt
  have e2 := exp_01136_lt
  have h1 := Real.exp_one_gt_d9
  have h2 := Real.exp_one_lt_d9
  set c := sigmoid 1 * Real.tanh 1 with hc
  have hc1 : (0.1135:ℝ) < 2 * c - 1 := by linarith
  have hc2 : 2 * c - 1 < (0.1136:ℝ) := by linarith
  have hsplit : Real.exp (2 * c) = Real.exp 1 * Real.exp (2 * c - 1) := by
    rw [← Real.exp_add]
    congr 1
    ring
  have hm1 : Real.exp 0.1135 < Real.exp (2 * c - 1) := Real.exp_lt_exp.mpr hc1
  have hm2 : Real.exp (2 * c - 1) < Real.exp 0.1136 := Real.exp_lt_exp.mpr hc2
  have p1 : (2.7182818283:ℝ) * 1.1201761 < Real.exp 1 * Real.exp (2 * c - 1) :=
    mul_lt_mul'' h1 (e1.trans hm1) (by norm_num) (by norm_num)
  have p2 : Real.exp 1 * Real.exp (2 * c - 1) < (2.7182818286:ℝ) * 1.1203055 :=
    mul_lt_mul'' h2 (hm2.trans e2) (Real.exp_pos 1).le (Real.exp_pos _).le
  rw [hsplit]
  constructor
  · linarith
  · linarith

/-- Rational interval for tanh of the scenario's new cell value. -/
theorem tanh_cell_bounds :
    0.50555 < Real.tanh (sigmoid 1 * Real.tanh 1) ∧
    Real.tanh (sigmoid 1 * Real.tanh 1) < 0.50561 := by
  obtain ⟨f1, f2⟩ := exp_cell_double_bounds
  rw [tanh_eq_exp_two_mul]
  constructor
  · rw [lt_div_iff₀ (by linarith)]
    linarith
  · rw [div_lt_iff₀ (by linarith)]
    linarith

/-- Rational interval for the scenario's new hidden value. -/
theorem hidden_bounds :
    0.3695 < sigmoid 1 * Real.tanh (sigmoid 1 * Real.tanh 1) ∧
    sigmoid 1 * Real.tanh (sigmoid 1 * Real.tanh 1) < 0.3697 := by
  obtain ⟨s1, s2⟩ := sigmoid_one_bounds
  obtain ⟨t1, t2⟩ := tanh_cell_bounds
  constructor <;> nlinarith

/-- C2: for the concrete instance hiddenSize = 1, inputSize = 1, all
weights 1 except the forget weights 0, all biases 0, tanh squashing and
sigmoid gating, starting from the reset state, one Compute on input [1.0]
produces a new cell state within 1e-4 of 0.5568 and an output within
1e-4 of 0.3696. -/
theorem scenario_compute_values :
    ∃ l₂ c h, scenarioLayer.Compute [1] = .ok (l₂, [h]) ∧
      l₂.ctActual = [c] ∧
      |c - 0.5568| < 1 / 10000 ∧ |h - 0.3696| < 1 / 10000 := by
  have hcell : scenarioLayer.newCellState [1] = [sigmoid 1 * Real.tanh 1] := by
    simp [LSTMLayer.newCellState, LSTMLayer.forgetGate, LSTMLayer.inputGate,
      LSTMLayer.candidate, LSTMLayer.concatVec, scenarioLayer, vadd, hadamard,
      matVec, dot, ActivationId.apply]
  have hhid : scenarioLayer.newHiddenState [1] =
      [sigmoid 1 * Real.tanh (sigmoid 1 * Real.tanh 1)] := by
    simp [LSTMLayer.newHiddenState, LSTMLayer.newCellState, LSTMLayer.outputGate,
      LSTMLayer.forgetGate, LSTMLayer.inputGate, LSTMLayer.candidate,
      LSTMLayer.concatVec, scenarioLayer, vadd, hadamard, matVec, dot,
      ActivationId.apply]
  have hC := scenarioLayer.Compute_eq_ok [1] rfl
  rw [hcell, hhid] at hC
  refine ⟨_, sigmoid 1 * Real.tanh 1,
    sigmoid 1 * Real.tanh (sigmoid 1 * Real.tanh 1), hC, rfl, ?_, ?_⟩
  · obtain ⟨c1, c2⟩ := cell_bounds
    rw [abs_lt]
    constructor <;> linarith
  · obtain ⟨h1, h2⟩ := hidden_bounds
    rw [abs_lt]
    constructor <;> linarith

/-- Witness for C1 at the scenario layer on input [1.0]. -/
theorem compute_lstm_update_witness :
    ∃ l₂, scenarioLayer.Compute [1] =
        .ok (l₂, scenarioLayer.newHiddenState [1]) ∧
      l₂.ctActual = scenarioLayer.newCellState [1] ∧
      l₂.hiddenState = scenarioLayer.newHiddenState [1] ∧
      scenarioLayer.newCellState [1] =
        vadd (hadamard (scenarioLayer.forgetGate [1]) scenarioLayer.ctActual)
          (hadamard (scenarioLayer.inputGate [1]) (scenarioLayer.candidate [1])) ∧
      scenarioLayer.newHiddenState [1] =
        hadamard (scenarioLayer.outputGate [1])
          ((scenarioLayer.newCellState [1]).map scenarioLayer.activation.apply) ∧
      scenarioLayer.inputGate [1] =
        (vadd (matVec scenarioLayer.inputWeights
            ([1] ++ scenarioLayer.hiddenState)) scenarioLayer.inputBias).map
          scenarioLayer.recurrentActivation.apply ∧
      scenarioLayer.forgetGate [1] =
        (vadd (matVec scenarioLayer.forgetMeWeights
            ([1] ++ scenarioLayer.hiddenState)) scenarioLayer.forgetMeBias).map
          scenarioLayer.recurrentActivation.apply ∧
      scenarioLayer.outputGate [1] =
        (vadd (matVec scenarioLayer.outputWeights
            ([1] ++ scenarioLayer.hiddenState)) scenarioLayer.outputBias).map
          scenarioLayer.recurrentActivation.apply ∧
      scenarioLayer.candidate [1] =
        (vadd (matVec scenarioLayer.candidateWeights
            ([1] ++ scenarioLayer.hiddenState)) scenarioLayer.candidateBias).map
          scenarioLayer.activation.apply :=
  compute_lstm_update scenarioLayer [1] (by decide) rfl

end

end ELL
